import Mathlib

/-
  Verification of the Base Identity Protocol core
  (analysis pipeline, scoring engine, identity store) against its
  natural-language specification.

  Shallow embedding of:
    - src/analysis.py   (ChainDataClient + ScoringEngine)
    - src/graph.py      (IdentityWorkflow: analyst -> identity -> save)
    - src/database.py   (IdentityStore: save_identity / mark_as_minted / get_identity)
    - src/app.py        (caller: cache check, then graph.invoke)

  Python floats are modelled as rationals; all score values produced by the
  code lie in a small finite set, so no floating-point rounding is relevant
  to the properties proved here. `datetime.utcnow()` is modelled as an
  explicit `now : Nat` argument at each call that reads the clock. External
  effects (web3 RPC, the naming LLM) are modelled as oracle fields of an
  environment record; a raised Python exception is an `Except.error`.
-/

namespace BaseIdentity

/-- Token contract table from src/analysis.py (`CONTRACTS`), in insertion
order: token symbol paired with its configured contract address. -/
def CONTRACTS : List (String × String) :=
  [("BRETT", "0x532f27101965dd16442E59d40670FaF5eBB142E4"),
   ("TOSHI", "0xAC1Bd2486aAf3B5C0fc3Fd868558b082a531B2B4"),
   ("DEGEN", "0x4ed4E862860beD51a9570b96d89aF5E1B0Efefed"),
   ("AERO", "0x940181a94A35A4569E4529A3CDfB74e38FD98631"),
   ("USDC", "0x833589fCD6eDb6E08f4c7C32D4f71b54bdA02913"),
   ("BASE_PAINT", "0xba5e05cb26b78eda3a2f8e3b3814726305dcac83")]

/-- Result record of src/analysis.py `WalletStats` (pydantic model).
`holdings` is a dict in the source; Python dicts keep insertion order, so it
is embedded as an association list. -/
structure WalletStats where
  address : String
  eth_balance : ℚ
  tx_count : ℕ
  holdings : List (String × ℚ)
  wealth_score : ℚ
  vitality_score : ℚ
  community_score : ℚ
  final_score : ℚ
  tier : String
deriving DecidableEq, Repr

/-- Environment of external effects consumed by src/analysis.py: the web3
provider. `is_address` models `w3.is_address`, `checksum` models
`w3.to_checksum_address`, the fetch fields model the RPC reads (values in
wei, i.e. smallest-unit integers); `Except.error` is a raised exception.
`token_fetch` is keyed by the configured token contract address. -/
structure ChainEnv where
  connected : Bool
  is_address : String → Bool
  checksum : String → String
  get_balance : Except Unit ℕ
  get_tx_count : Except Unit ℕ
  token_fetch : String → Except Unit ℕ

/-- Network calls observable during `analyze_wallet`, in program order. -/
inductive NetCall
  | isConnected
  | getBalance
  | getTransactionCount
  | tokenBalanceOf (contract : String)
deriving DecidableEq, Repr

/-- Errors raised by src/analysis.py `analyze_wallet`:
`providerUnavailable` is the `ConnectionError` from the `is_connected` check,
`invalidAddress` the `ValueError` from address validation, `dataFetchError`
the `ConnectionError` wrapping a failed balance/tx-count read. -/
inductive AnalyzeError
  | providerUnavailable
  | invalidAddress
  | dataFetchError
deriving DecidableEq, Repr

/-- src/analysis.py `get_token_balance`: returns `balance_wei / 10**18`,
and `0.0` if any step of the contract call raises. -/
def get_token_balance (env : ChainEnv) (token_address : String) : ℚ :=
  match env.token_fetch token_address with
  | .ok wei => (wei : ℚ) / 10 ^ 18
  | .error _ => 0

/-- src/analysis.py `calculate_wealth_score`. -/
def calculate_wealth_score (eth_balance : ℚ) : ℚ :=
  if 10 ≤ eth_balance then 100
  else if 1 ≤ eth_balance then 80
  else if 1 / 10 ≤ eth_balance then 50
  else 20

/-- src/analysis.py `calculate_vitality_score`. -/
def calculate_vitality_score (tx_count : ℕ) : ℚ :=
  if 1000 ≤ tx_count then 100
  else if 500 ≤ tx_count then 85
  else if 100 ≤ tx_count then 60
  else if 20 ≤ tx_count then 40
  else 10

/-- src/analysis.py `calculate_community_score`: starts at 0, adds 20 per
entry with positive balance, then caps with `min(100.0, score)`. -/
def calculate_community_score (holdings : List (String × ℚ)) : ℚ :=
  min 100 (holdings.foldl (fun score p => if 0 < p.2 then score + 20 else score) 0)

/-- src/analysis.py `calculate_tier`. -/
def calculate_tier (final_score : ℚ) : String :=
  if 85 ≤ final_score then "GODLY"
  else if 65 ≤ final_score then "LEGENDARY"
  else if 40 ≤ final_score then "RARE"
  else "COMMON"

/-- Ordinal rank of the tier labels, encoding the spec ordering
COMMON < RARE < LEGENDARY < GODLY. -/
def tierRank (tier : String) : ℕ :=
  if tier = "GODLY" then 3
  else if tier = "LEGENDARY" then 2
  else if tier = "RARE" then 1
  else 0

/-- The holdings dict built by the token loop of src/analysis.py
`analyze_wallet`: each configured token is looked up with
`get_token_balance` and inserted only when the balance is positive. -/
def holdingsOf (env : ChainEnv) : List (String × ℚ) :=
  CONTRACTS.foldl
    (fun h p =>
      let balance := get_token_balance env p.2
      if 0 < balance then h ++ [(p.1, balance)] else h)
    []

/-- The `WalletStats` value built by the success path of src/analysis.py
`analyze_wallet` from the raw balance (in wei) and transaction count. -/
def wallet_stats_of (env : ChainEnv) (address : String)
    (eth_balance_wei tx_count : ℕ) : WalletStats :=
  let eth_balance : ℚ := (eth_balance_wei : ℚ) / 10 ^ 18
  let holdings := holdingsOf env
  let wealth_score := calculate_wealth_score eth_balance
  let vitality_score := calculate_vitality_score tx_count
  let community_score := calculate_community_score holdings
  let final_score :=
    wealth_score * (3 / 10) + vitality_score * (4 / 10) + community_score * (3 / 10)
  let tier := calculate_tier final_score
  { address := address
    eth_balance := eth_balance
    tx_count := tx_count
    holdings := holdings
    wealth_score := wealth_score
    vitality_score := vitality_score
    community_score := community_score
    final_score := final_score
    tier := tier }

/-- src/analysis.py `analyze_wallet`, paired with the trace of network
calls it performs, in program order: the `w3.is_connected()` probe comes
first, then (only on a valid address) `get_balance`, then
`get_transaction_count`, then one `balanceOf` call per configured token. -/
def analyze_wallet_run (env : ChainEnv) (address : String) :
    Except AnalyzeError WalletStats × List NetCall :=
  if env.connected = false then
    (.error .providerUnavailable, [.isConnected])
  else if env.is_address address = false then
    (.error .invalidAddress, [.isConnected])
  else
    match env.get_balance with
    | .error _ => (.error .dataFetchError, [.isConnected, .getBalance])
    | .ok eth_balance_wei =>
      match env.get_tx_count with
      | .error _ =>
        (.error .dataFetchError, [.isConnected, .getBalance, .getTransactionCount])
      | .ok tx_count =>
        (.ok (wallet_stats_of env address eth_balance_wei tx_count),
         [.isConnected, .getBalance, .getTransactionCount]
           ++ CONTRACTS.map (fun p => .tokenBalanceOf p.2))

/-- src/analysis.py `analyze_wallet`: the returned value (or raised error). -/
def analyze_wallet (env : ChainEnv) (address : String) :
    Except AnalyzeError WalletStats :=
  (analyze_wallet_run env address).1

/-- src/graph.py `GraphState` (TypedDict). `wallet_stats` holds the
`model_dump()` of the analyst's `WalletStats`, embedded here as the record
itself since the dump is field-for-field. -/
structure GraphState where
  address : String
  wallet_stats : WalletStats
  name : String
  verdict : String
  tier : String
deriving DecidableEq, Repr

/-- Parsed JSON object returned by the naming oracle chain in
src/graph.py `identity_node`; `none` in a field means the key is absent
(the code reads both keys with `result.get(key, default)`). A response
that is not valid JSON, or any raised error, is modelled as `Except.error`
on the oracle, since `JsonOutputParser` raises inside the `try` block. -/
structure OracleResponse where
  name : Option String
  verdict : Option String
deriving DecidableEq, Repr

/-- Python `str.lower()` on the basic-latin strings used by this program,
modelled structurally over the character list so it evaluates in the
kernel. -/
def strLower (s : String) : String := ⟨s.data.map Char.toLower⟩

/-- src/graph.py `identity_node`: on a successful oracle invocation, take
`name`/`verdict` from the response with defaults `"Unknown Identity"` and
`"A wallet on Base."`; on any raised error, fall back to the templated
name and verdict built from the tier and the transaction count
(`f"Base ..." / f"A {tier.lower()} tier wallet on Base with ..."`). -/
def identity_node (oracle : Except Unit OracleResponse) (state : GraphState) :
    GraphState :=
  match oracle with
  | .ok result =>
    { state with
      name := result.name.getD "Unknown Identity"
      verdict := result.verdict.getD "A wallet on Base." }
  | .error _ =>
    { state with
      name := "Base " ++ state.tier ++ " Wallet"
      verdict := "A " ++ strLower state.tier ++ " tier wallet on Base with "
        ++ toString state.wallet_stats.tx_count ++ " transactions." }

/-- The `stats` JSON blob assembled in src/graph.py `save_node`. -/
structure StatsBlob where
  eth_balance : ℚ
  tx_count : ℕ
  holdings : List (String × ℚ)
deriving DecidableEq, Repr

/-- The `scores` JSON blob assembled in src/graph.py `save_node`. -/
structure ScoresBlob where
  wealth_score : ℚ
  vitality_score : ℚ
  community_score : ℚ
  final_score : ℚ
deriving DecidableEq, Repr

/-- src/database.py `Identity` row. Timestamps are naturals
(`datetime.utcnow()` readings). Note the schema has a `created_at` column
but no `updated_at` column. -/
structure IdentityRecord where
  address : String
  name : String
  tier : String
  verdict : String
  stats : StatsBlob
  scores : ScoresBlob
  minted : Bool
  mint_tx_hash : Option String
  minted_at : Option ℕ
  created_at : ℕ
deriving DecidableEq, Repr

/-- The `data` dict argument of src/database.py `save_identity`. The mint
fields are dict keys that may be absent: the outer `Option` is key
presence (`none` = key not in the dict), and for `mint_tx_hash` /
`minted_at` the inner `Option` is the (nullable) value stored under a
present key. -/
structure IdentityData where
  address : String
  name : String
  tier : String
  verdict : String
  stats : StatsBlob
  scores : ScoresBlob
  minted : Option Bool
  mint_tx_hash : Option (Option String)
  minted_at : Option (Option ℕ)
deriving Repr

/-- The identities table, keyed by the primary-key column `address`. -/
def Store : Type := String → Option IdentityRecord

/-- src/database.py `get_identity`: point lookup by address. -/
def get_identity (store : Store) (address : String) : Option IdentityRecord :=
  store address

/-- src/database.py `save_identity` (upsert). On an existing row it
rewrites name/tier/verdict/stats/scores, writes each mint field only when
its key is present in `data`, and assigns `created_at = datetime.utcnow()`
(the code overwrites the creation timestamp on update). On a missing row
it inserts, with `data.get('minted', False)` and `data.get(...)` (i.e.
`none`) defaults for the mint fields. `now` is the `datetime.utcnow()`
reading. -/
def save_identity (store : Store) (data : IdentityData) (now : ℕ) : Store :=
  match store data.address with
  | some existing => fun a =>
      if a = data.address then
        some { existing with
               name := data.name
               tier := data.tier
               verdict := data.verdict
               stats := data.stats
               scores := data.scores
               minted := data.minted.getD existing.minted
               mint_tx_hash := data.mint_tx_hash.getD existing.mint_tx_hash
               minted_at := data.minted_at.getD existing.minted_at
               created_at := now }
      else store a
  | none => fun a =>
      if a = data.address then
        some { address := data.address
               name := data.name
               tier := data.tier
               verdict := data.verdict
               stats := data.stats
               scores := data.scores
               minted := data.minted.getD false
               mint_tx_hash := data.mint_tx_hash.getD none
               minted_at := data.minted_at.getD none
               created_at := now }
      else store a

/-- src/database.py `mark_as_minted`: if the row exists, set
`minted = True`, store the tx hash, stamp `minted_at`, return `True`;
otherwise leave the store unchanged and return `False`. -/
def mark_as_minted (store : Store) (address tx_hash : String) (now : ℕ) :
    Store × Bool :=
  match store address with
  | some identity =>
    (fun a =>
      if a = address then
        some { identity with
               minted := true
               mint_tx_hash := some tx_hash
               minted_at := some now }
      else store a,
     true)
  | none => (store, false)

/-- The `data` dict built in src/graph.py `save_node` from the final graph
state: analysis-derived fields only — none of the mint keys is present. -/
def save_node_data (state : GraphState) : IdentityData :=
  { address := state.address
    name := state.name
    tier := state.tier
    verdict := state.verdict
    stats := { eth_balance := state.wallet_stats.eth_balance
               tx_count := state.wallet_stats.tx_count
               holdings := state.wallet_stats.holdings }
    scores := { wealth_score := state.wallet_stats.wealth_score
                vitality_score := state.wallet_stats.vitality_score
                community_score := state.wallet_stats.community_score
                final_score := state.wallet_stats.final_score }
    minted := none
    mint_tx_hash := none
    minted_at := none }

/-- src/graph.py `create_wallet_identity_graph().invoke`: the linear
pipeline analyst -> identity -> save. `analyst_node` runs `analyze_wallet`
and copies stats and tier into the state (an exception there aborts the
whole invocation); `identity_node` names; `save_node` upserts via
`save_identity`. Returns the final state and the updated store. -/
def run_graph (env : ChainEnv) (oracle : Except Unit OracleResponse)
    (store : Store) (now : ℕ) (address : String) :
    Except AnalyzeError (GraphState × Store) :=
  match analyze_wallet env address with
  | .error e => .error e
  | .ok stats =>
    let st1 : GraphState :=
      { address := address, wallet_stats := stats, name := "", verdict := ""
        tier := stats.tier }
    let st2 := identity_node oracle st1
    let store2 := save_identity store (save_node_data st2) now
    .ok (st2, store2)

/-- src/app.py `main`, generate branch: validate the address, checksum it,
check the store first (`get_identity`); on a hit return the stored record
without running the graph; on a miss invoke the graph and re-read the
stored record. The `Bool` component records whether the pipeline (and so
the naming-oracle invocation inside `identity_node`) ran. -/
def app_generate (env : ChainEnv) (oracle : Except Unit OracleResponse)
    (store : Store) (now : ℕ) (address : String) :
    Except AnalyzeError (Option IdentityRecord × Store × Bool) :=
  if env.is_address address = false then .error .invalidAddress
  else
    match get_identity store (env.checksum address) with
    | some existing => .ok (some existing, store, false)
    | none =>
      match run_graph env oracle store now (env.checksum address) with
      | .error e => .error e
      | .ok (_, store2) =>
        .ok (get_identity store2 (env.checksum address), store2, true)

/-- The graph state after `analyst_node` in src/graph.py: the analysis
result and its tier copied into the (otherwise still empty) state. -/
def analyst_out (env : ChainEnv) (address : String) (wb tb : ℕ) : GraphState :=
  { address := address
    wallet_stats := wallet_stats_of env address wb tb
    name := ""
    verdict := ""
    tier := (wallet_stats_of env address wb tb).tier }

/-! ### Concrete fixtures used by witnesses and counterexamples -/

/-- A reachable provider that finds an empty wallet at every address. -/
def envOK : ChainEnv :=
  { connected := true
    is_address := fun _ => true
    checksum := fun a => a
    get_balance := .ok 0
    get_tx_count := .ok 0
    token_fetch := fun _ => .ok 0 }

/-- An unreachable provider (connection cannot be established). -/
def envDown : ChainEnv :=
  { connected := false
    is_address := fun _ => false
    checksum := fun a => a
    get_balance := .error ()
    get_tx_count := .error ()
    token_fetch := fun _ => .error () }

/-- A reachable provider given a malformed address. -/
def envInvalid : ChainEnv :=
  { connected := true
    is_address := fun _ => false
    checksum := fun a => a
    get_balance := .ok 0
    get_tx_count := .ok 0
    token_fetch := fun _ => .ok 0 }

/-- A reachable provider where the BRETT contract call raises and every
other configured token reports a balance of 2 tokens (2 * 10^18 wei). -/
def envTokenFail : ChainEnv :=
  { connected := true
    is_address := fun _ => true
    checksum := fun a => a
    get_balance := .ok 0
    get_tx_count := .ok 0
    token_fetch := fun a =>
      if a = "0x532f27101965dd16442E59d40670FaF5eBB142E4" then .error ()
      else .ok (2 * 10 ^ 18) }

/-- The empty identities table. -/
def emptyStore : Store := fun _ => none

/-- A stored, not-yet-minted identity record for address `0xA`. -/
def recA : IdentityRecord :=
  { address := "0xA"
    name := "Base COMMON Wallet"
    tier := "COMMON"
    verdict := "V0"
    stats := { eth_balance := 0, tx_count := 0, holdings := [] }
    scores := { wealth_score := 20, vitality_score := 10,
                community_score := 0, final_score := 10 }
    minted := false
    mint_tx_hash := none
    minted_at := none
    created_at := 1 }

/-- A one-row identities table holding `recA`. -/
def storeA : Store := fun a => if a = "0xA" then some recA else none

/-- Upsert input for address `0xA` with no mint keys, as `save_node`
produces. -/
def dataA : IdentityData :=
  { address := "0xA"
    name := "N1"
    tier := "COMMON"
    verdict := "V1"
    stats := { eth_balance := 0, tx_count := 0, holdings := [] }
    scores := { wealth_score := 20, vitality_score := 10,
                community_score := 0, final_score := 10 }
    minted := none
    mint_tx_hash := none
    minted_at := none }

/-- A second upsert input for address `0xA` carrying a new name. -/
def dataB : IdentityData :=
  { dataA with name := "N2" }

/-- Concrete analysis output: a COMMON wallet with 5 transactions. -/
def statsCommon : WalletStats :=
  { address := "0xA"
    eth_balance := 0
    tx_count := 5
    holdings := []
    wealth_score := 20
    vitality_score := 10
    community_score := 0
    final_score := 10
    tier := "COMMON" }

/-- Graph state just after the analyst stage for `statsCommon`. -/
def stCommon : GraphState :=
  { address := "0xA"
    wallet_stats := statsCommon
    name := ""
    verdict := ""
    tier := "COMMON" }

/-! ### Helper lemmas about the scoring engine -/

lemma community_fold_eq (l : List (String × ℚ)) (acc : ℚ) :
    l.foldl (fun score p => if 0 < p.2 then score + 20 else score) acc
      = acc + 20 * (l.countP (fun p => decide (0 < p.2)) : ℚ) := by
  induction l generalizing acc with
  | nil => simp
  | cons x xs ih =>
    simp only [List.foldl_cons, List.countP_cons, ih]
    by_cases h : 0 < x.2
    · simp [h]
      ring
    · simp [h]

lemma calculate_community_score_eq (H : List (String × ℚ)) :
    calculate_community_score H
      = min 100 (20 * (H.countP (fun p => decide (0 < p.2)) : ℚ)) := by
  unfold calculate_community_score
  rw [community_fold_eq]
  ring_nf

lemma wealth_score_mem (b : ℚ) :
    calculate_wealth_score b = 100 ∨ calculate_wealth_score b = 80 ∨
    calculate_wealth_score b = 50 ∨ calculate_wealth_score b = 20 := by
  unfold calculate_wealth_score
  split_ifs <;> simp

lemma vitality_score_mem (n : ℕ) :
    calculate_vitality_score n = 100 ∨ calculate_vitality_score n = 85 ∨
    calculate_vitality_score n = 60 ∨ calculate_vitality_score n = 40 ∨
    calculate_vitality_score n = 10 := by
  unfold calculate_vitality_score
  split_ifs <;> simp

lemma community_score_bounds (H : List (String × ℚ)) :
    0 ≤ calculate_community_score H ∧ calculate_community_score H ≤ 100 := by
  rw [calculate_community_score_eq]
  constructor
  · apply le_min (by norm_num)
    positivity
  · exact min_le_left _ _

lemma tier_eq_godly_iff (s : ℚ) : calculate_tier s = "GODLY" ↔ 85 ≤ s := by
  unfold calculate_tier
  split_ifs with h1 h2 h3
  · exact iff_of_true rfl h1
  · exact iff_of_false (by decide) h1
  · exact iff_of_false (by decide) h1
  · exact iff_of_false (by decide) h1

lemma tier_eq_legendary_iff (s : ℚ) :
    calculate_tier s = "LEGENDARY" ↔ 65 ≤ s ∧ s < 85 := by
  unfold calculate_tier
  split_ifs with h1 h2 h3
  · exact iff_of_false (by decide) (fun h => absurd h.2 (not_lt.mpr h1))
  · exact iff_of_true rfl ⟨h2, lt_of_not_le h1⟩
  · exact iff_of_false (by decide) (fun h => h2 h.1)
  · exact iff_of_false (by decide) (fun h => h2 h.1)

lemma tier_eq_rare_iff (s : ℚ) :
    calculate_tier s = "RARE" ↔ 40 ≤ s ∧ s < 65 := by
  unfold calculate_tier
  split_ifs with h1 h2 h3
  · exact iff_of_false (by decide) (fun h => absurd h.2 (by push_neg; linarith))
  · exact iff_of_false (by decide) (fun h => absurd h.2 (not_lt.mpr h2))
  · exact iff_of_true rfl ⟨h3, lt_of_not_le h2⟩
  · exact iff_of_false (by decide) (fun h => h3 h.1)

lemma tier_eq_common_iff (s : ℚ) : calculate_tier s = "COMMON" ↔ s < 40 := by
  unfold calculate_tier
  split_ifs with h1 h2 h3
  · exact iff_of_false (by decide) (by push_neg; linarith)
  · exact iff_of_false (by decide) (by push_neg; linarith)
  · exact iff_of_false (by decide) (not_lt.mpr h3)
  · exact iff_of_true rfl (lt_of_not_le h3)

lemma tierRank_mono {a b : ℚ} (hab : a ≤ b) :
    tierRank (calculate_tier a) ≤ tierRank (calculate_tier b) := by
  unfold calculate_tier
  split_ifs <;> first | decide | linarith

lemma tier_common_imp_lt (s : ℚ) (h : calculate_tier s = "COMMON") : s < 40 :=
  (tier_eq_common_iff s).mp h

/-! ### Claim theorems for the scoring engine -/

/-- C6: for every finalScore in [0,100], `calculate_tier` returns GODLY iff
the score is at least 85, LEGENDARY iff it is in [65,85), RARE iff it is in
[40,65), and COMMON otherwise; the four bands are non-overlapping and
exhaustive, and the tier, ranked COMMON < RARE < LEGENDARY < GODLY, is
monotone non-decreasing in the score. -/
theorem C6_tier_bands_and_monotone (s : ℚ) (h0 : 0 ≤ s) (h100 : s ≤ 100) :
    ((calculate_tier s = "GODLY" ↔ 85 ≤ s) ∧
     (calculate_tier s = "LEGENDARY" ↔ 65 ≤ s ∧ s < 85) ∧
     (calculate_tier s = "RARE" ↔ 40 ≤ s ∧ s < 65) ∧
     (calculate_tier s = "COMMON" ↔ s < 40)) ∧
    (calculate_tier s = "GODLY" ∨ calculate_tier s = "LEGENDARY" ∨
     calculate_tier s = "RARE" ∨ calculate_tier s = "COMMON") ∧
    (∀ a b : ℚ, a ≤ b →
      tierRank (calculate_tier a) ≤ tierRank (calculate_tier b)) := by
  refine ⟨⟨tier_eq_godly_iff s, tier_eq_legendary_iff s, tier_eq_rare_iff s,
          tier_eq_common_iff s⟩, ?_, fun a b hab => tierRank_mono hab⟩
  unfold calculate_tier
  split_ifs <;> simp

/-- Witness for C6 at finalScore 50 (a RARE-band score). -/
theorem C6_tier_bands_and_monotone_witness :
    (0 ≤ (50 : ℚ)) ∧ ((50 : ℚ) ≤ 100) ∧
    (calculate_tier 50 = "RARE" ↔ 40 ≤ (50 : ℚ) ∧ (50 : ℚ) < 65) :=
  ⟨by norm_num, by norm_num,
    (C6_tier_bands_and_monotone 50 (by norm_num) (by norm_num)).1.2.2.1⟩

/-- C7: the wealth score is the step function 100 on [10,∞), 80 on [1,10),
50 on [0.1,1), and 20 below 0.1. -/
theorem C7_wealth_step_function (b : ℚ) :
    (10 ≤ b → calculate_wealth_score b = 100) ∧
    (1 ≤ b ∧ b < 10 → calculate_wealth_score b = 80) ∧
    (1 / 10 ≤ b ∧ b < 1 → calculate_wealth_score b = 50) ∧
    (b < 1 / 10 → calculate_wealth_score b = 20) := by
  unfold calculate_wealth_score
  refine ⟨fun h => ?_, fun h => ?_, fun h => ?_, fun h => ?_⟩ <;>
    split_ifs <;> first | rfl | linarith [h]

/-- Witness for C7 at balance 5 (the 80-point band). -/
theorem C7_wealth_step_function_witness :
    (1 ≤ (5 : ℚ) ∧ (5 : ℚ) < 10) ∧ calculate_wealth_score 5 = 80 :=
  ⟨by norm_num, (C7_wealth_step_function 5).2.1 (by norm_num)⟩

/-- C8: the community score equals min(100, 20 times the number of holdings
entries with strictly positive balance). -/
theorem C8_community_score_formula (H : List (String × ℚ)) :
    calculate_community_score H
      = min 100 (20 * (H.countP (fun p => decide (0 < p.2)) : ℚ)) :=
  calculate_community_score_eq H

/-! ### Helper lemmas about analyze_wallet -/

lemma analyze_wallet_eq_ok (env : ChainEnv) (address : String)
    (hc : env.connected = true) (hv : env.is_address address = true)
    {wb tb : ℕ} (hb : env.get_balance = .ok wb) (ht : env.get_tx_count = .ok tb) :
    analyze_wallet env address = .ok (wallet_stats_of env address wb tb) := by
  unfold analyze_wallet analyze_wallet_run
  simp [hc, hv, hb, ht]

lemma analyze_wallet_ok_inv (env : ChainEnv) (address : String)
    (stats : WalletStats) (h : analyze_wallet env address = .ok stats) :
    ∃ wb tb : ℕ, env.get_balance = .ok wb ∧ env.get_tx_count = .ok tb ∧
      stats = wallet_stats_of env address wb tb := by
  unfold analyze_wallet analyze_wallet_run at h
  by_cases hc : env.connected = false
  · rw [if_pos hc] at h
    simp at h
  · rw [if_neg hc] at h
    by_cases hv : env.is_address address = false
    · rw [if_pos hv] at h
      simp at h
    · rw [if_neg hv] at h
      cases hb : env.get_balance with
      | error e => rw [hb] at h; simp at h
      | ok wb =>
        rw [hb] at h
        cases ht : env.get_tx_count with
        | error e => rw [ht] at h; simp at h
        | ok tb =>
          rw [ht] at h
          simp at h
          exact ⟨wb, tb, rfl, rfl, h.symm⟩

lemma wealth_score_bounds (b : ℚ) :
    20 ≤ calculate_wealth_score b ∧ calculate_wealth_score b ≤ 100 := by
  rcases wealth_score_mem b with h | h | h | h <;> rw [h] <;> norm_num

lemma vitality_score_bounds (n : ℕ) :
    10 ≤ calculate_vitality_score n ∧ calculate_vitality_score n ≤ 100 := by
  rcases vitality_score_mem n with h | h | h | h | h <;> rw [h] <;> norm_num

lemma mem_foldl_holdings (env : ChainEnv) (l : List (String × String))
    (acc : List (String × ℚ)) (x : String × ℚ) :
    (x ∈ l.foldl
        (fun h p =>
          let balance := get_token_balance env p.2
          if 0 < balance then h ++ [(p.1, balance)] else h)
        acc) ↔
      x ∈ acc ∨ ∃ p ∈ l, 0 < get_token_balance env p.2 ∧
        x = (p.1, get_token_balance env p.2) := by
  induction l generalizing acc with
  | nil => simp
  | cons q qs ih =>
    simp only [List.foldl_cons]
    rw [ih]
    by_cases h : 0 < get_token_balance env q.2
    · simp only [h, if_true, List.mem_append, List.mem_singleton,
        List.exists_mem_cons_iff]
      tauto
    · simp only [h, if_false, List.exists_mem_cons_iff, false_and]
      tauto

lemma mem_holdingsOf (env : ChainEnv) (x : String × ℚ) :
    x ∈ holdingsOf env ↔
      ∃ p ∈ CONTRACTS, 0 < get_token_balance env p.2 ∧
        x = (p.1, get_token_balance env p.2) := by
  unfold holdingsOf
  rw [mem_foldl_holdings]
  simp

lemma contracts_name_inj :
    ∀ p ∈ CONTRACTS, ∀ q ∈ CONTRACTS, p.1 = q.1 → p = q := by decide

/-! ### Claim theorems about analyze_wallet -/

/-- C10: every successful `analyze_wallet` result has wealth score at least
20, vitality score at least 10, community score at least 0, hence a final
score in [10, 100]; in particular a COMMON-tier result has final score in
[10, 40). -/
theorem C10_final_score_lower_bound (env : ChainEnv) (address : String)
    (stats : WalletStats) (h : analyze_wallet env address = .ok stats) :
    20 ≤ stats.wealth_score ∧ 10 ≤ stats.vitality_score ∧
    0 ≤ stats.community_score ∧
    10 ≤ stats.final_score ∧ stats.final_score ≤ 100 ∧
    (stats.tier = "COMMON" →
      10 ≤ stats.final_score ∧ stats.final_score < 40) := by
  obtain ⟨wb, tb, hb, ht, rfl⟩ := analyze_wallet_ok_inv env address stats h
  have hw := wealth_score_bounds ((wb : ℚ) / 10 ^ 18)
  have hv := vitality_score_bounds tb
  have hcm := community_score_bounds (holdingsOf env)
  simp only [wallet_stats_of]
  refine ⟨hw.1, hv.1, hcm.1, by linarith [hw.1, hv.1, hcm.1], ?_, ?_⟩
  · linarith [hw.2, hv.2, hcm.2]
  · intro hcom
    exact ⟨by linarith [hw.1, hv.1, hcm.1], tier_common_imp_lt _ hcom⟩

/-- Witness for C10: the empty wallet scores exactly at the lower bound. -/
theorem C10_final_score_lower_bound_witness :
    analyze_wallet envOK "0xW" = .ok (wallet_stats_of envOK "0xW" 0 0) ∧
    (20 ≤ (wallet_stats_of envOK "0xW" 0 0).wealth_score ∧
     10 ≤ (wallet_stats_of envOK "0xW" 0 0).vitality_score ∧
     0 ≤ (wallet_stats_of envOK "0xW" 0 0).community_score ∧
     10 ≤ (wallet_stats_of envOK "0xW" 0 0).final_score ∧
     (wallet_stats_of envOK "0xW" 0 0).final_score ≤ 100 ∧
     ((wallet_stats_of envOK "0xW" 0 0).tier = "COMMON" →
       10 ≤ (wallet_stats_of envOK "0xW" 0 0).final_score ∧
       (wallet_stats_of envOK "0xW" 0 0).final_score < 40)) :=
  ⟨rfl, C10_final_score_lower_bound envOK "0xW" _ rfl⟩

/-- C3 counterexample: with an unreachable provider and a malformed
address, `analyze_wallet` raises ProviderUnavailable, not InvalidAddress —
the connectivity check precedes address validation, so a malformed address
does not fail with InvalidAddress before the network probe. -/
theorem C3_counterexample :
    envDown.is_address "not-an-address" = false ∧
    analyze_wallet envDown "not-an-address" = .error .providerUnavailable ∧
    analyze_wallet envDown "not-an-address" ≠ .error .invalidAddress := by
  refine ⟨rfl, rfl, fun h => ?_⟩
  have h2 : AnalyzeError.providerUnavailable = AnalyzeError.invalidAddress := by
    have h3 : (Except.error AnalyzeError.providerUnavailable :
        Except AnalyzeError WalletStats) = .error .invalidAddress := h
    injection h3
  exact AnalyzeError.noConfusion h2

/-- C3 amended: if the provider connection cannot be established,
`analyze_wallet` fails with ProviderUnavailable regardless of the address;
otherwise an address failing validation fails with InvalidAddress after
only the connectivity probe — no balance, transaction-count or token
network call is made. -/
theorem C3_fail_fast_amended :
    (∀ (env : ChainEnv) (address : String), env.connected = false →
      analyze_wallet env address = .error .providerUnavailable) ∧
    (∀ (env : ChainEnv) (address : String), env.connected = true →
      env.is_address address = false →
      analyze_wallet env address = .error .invalidAddress ∧
      (analyze_wallet_run env address).2 = [.isConnected]) := by
  constructor
  · intro env a hc
    unfold analyze_wallet analyze_wallet_run
    simp [hc]
  · intro env a hc hv
    unfold analyze_wallet analyze_wallet_run
    simp [hc, hv]

/-- Witness for C3 amended: both branches at concrete environments. -/
theorem C3_fail_fast_amended_witness :
    (envDown.connected = false ∧
      analyze_wallet envDown "0x00" = .error .providerUnavailable) ∧
    (envInvalid.connected = true ∧ envInvalid.is_address "zzz" = false ∧
      analyze_wallet envInvalid "zzz" = .error .invalidAddress ∧
      (analyze_wallet_run envInvalid "zzz").2 = [.isConnected]) :=
  ⟨⟨rfl, C3_fail_fast_amended.1 envDown "0x00" rfl⟩,
   ⟨rfl, rfl, (C3_fail_fast_amended.2 envInvalid "zzz" rfl rfl).1,
    (C3_fail_fast_amended.2 envInvalid "zzz" rfl rfl).2⟩⟩

/-- C5: when one configured token's balance lookup raises, `analyze_wallet`
still succeeds, that token is absent from the holdings, and every other
configured token whose lookup succeeds with a positive normalized balance
appears in the holdings. -/
theorem C5_token_failure_isolation (env : ChainEnv) (address : String)
    (hc : env.connected = true) (hv : env.is_address address = true)
    (wb tb : ℕ) (hb : env.get_balance = .ok wb) (ht : env.get_tx_count = .ok tb)
    (p : String × String) (hp : p ∈ CONTRACTS)
    (hfail : env.token_fetch p.2 = .error ()) :
    ∃ stats, analyze_wallet env address = .ok stats ∧
      (∀ b : ℚ, (p.1, b) ∉ stats.holdings) ∧
      (∀ q ∈ CONTRACTS, ∀ w : ℕ, env.token_fetch q.2 = .ok w →
        0 < ((w : ℚ) / 10 ^ 18) →
        (q.1, (w : ℚ) / 10 ^ 18) ∈ stats.holdings) := by
  have hstats : (wallet_stats_of env address wb tb).holdings = holdingsOf env := rfl
  refine ⟨wallet_stats_of env address wb tb,
    analyze_wallet_eq_ok env address hc hv hb ht, ?_, ?_⟩
  · intro b hmem
    rw [hstats, mem_holdingsOf] at hmem
    obtain ⟨q, hq, hpos, heq⟩ := hmem
    rw [Prod.mk.injEq] at heq
    have hqp : p = q := contracts_name_inj p hp q hq heq.1
    rw [← hqp] at hpos
    rw [get_token_balance, hfail] at hpos
    exact absurd hpos (by norm_num)
  · intro q hq w hw hpos
    rw [hstats, mem_holdingsOf]
    have hgtb : get_token_balance env q.2 = (w : ℚ) / 10 ^ 18 := by
      rw [get_token_balance, hw]
    exact ⟨q, hq, by rw [hgtb]; exact hpos, by rw [hgtb]⟩

/-- Witness for C5: BRETT's lookup raises in `envTokenFail`; TOSHI holds a
positive balance and must appear in the holdings. -/
theorem C5_token_failure_isolation_witness :
    (envTokenFail.connected = true ∧
     envTokenFail.is_address "0xW" = true ∧
     envTokenFail.get_balance = .ok 0 ∧
     envTokenFail.get_tx_count = .ok 0 ∧
     ("BRETT", "0x532f27101965dd16442E59d40670FaF5eBB142E4") ∈ CONTRACTS ∧
     envTokenFail.token_fetch "0x532f27101965dd16442E59d40670FaF5eBB142E4"
       = .error ()) ∧
    (∃ stats, analyze_wallet envTokenFail "0xW" = .ok stats ∧
      (∀ b : ℚ, ("BRETT", b) ∉ stats.holdings) ∧
      (∀ q ∈ CONTRACTS, ∀ w : ℕ, envTokenFail.token_fetch q.2 = .ok w →
        0 < ((w : ℚ) / 10 ^ 18) →
        (q.1, (w : ℚ) / 10 ^ 18) ∈ stats.holdings)) :=
  ⟨⟨rfl, rfl, rfl, rfl, by decide, rfl⟩,
   C5_token_failure_isolation envTokenFail "0xW" rfl rfl 0 0 rfl rfl
     ("BRETT", "0x532f27101965dd16442E59d40670FaF5eBB142E4") (by decide)
     rfl⟩

/-! ### Helper lemmas about the workflow and the store -/

lemma identity_node_address (o : Except Unit OracleResponse) (st : GraphState) :
    (identity_node o st).address = st.address := by
  cases o <;> rfl

lemma identity_node_tier (o : Except Unit OracleResponse) (st : GraphState) :
    (identity_node o st).tier = st.tier := by
  cases o <;> rfl

lemma identity_node_stats (o : Except Unit OracleResponse) (st : GraphState) :
    (identity_node o st).wallet_stats = st.wallet_stats := by
  cases o <;> rfl

lemma save_identity_update (store : Store) (data : IdentityData) (now : ℕ)
    (ex : IdentityRecord) (h : store data.address = some ex) :
    save_identity store data now data.address =
      some { ex with
             name := data.name
             tier := data.tier
             verdict := data.verdict
             stats := data.stats
             scores := data.scores
             minted := data.minted.getD ex.minted
             mint_tx_hash := data.mint_tx_hash.getD ex.mint_tx_hash
             minted_at := data.minted_at.getD ex.minted_at
             created_at := now } := by
  unfold save_identity
  rw [h]
  simp

lemma save_identity_insert (store : Store) (data : IdentityData) (now : ℕ)
    (h : store data.address = none) :
    save_identity store data now data.address =
      some { address := data.address
             name := data.name
             tier := data.tier
             verdict := data.verdict
             stats := data.stats
             scores := data.scores
             minted := data.minted.getD false
             mint_tx_hash := data.mint_tx_hash.getD none
             minted_at := data.minted_at.getD none
             created_at := now } := by
  unfold save_identity
  rw [h]
  simp

lemma save_identity_self (store : Store) (data : IdentityData) (now : ℕ) :
    ∃ rec, save_identity store data now data.address = some rec ∧
      rec.name = data.name ∧ rec.tier = data.tier ∧ rec.verdict = data.verdict ∧
      rec.stats = data.stats ∧ rec.scores = data.scores ∧
      rec.created_at = now := by
  cases h : store data.address with
  | none =>
    exact ⟨_, save_identity_insert store data now h, rfl, rfl, rfl, rfl, rfl, rfl⟩
  | some ex =>
    exact ⟨_, save_identity_update store data now ex h, rfl, rfl, rfl, rfl, rfl, rfl⟩

lemma mark_as_minted_update (store : Store) (address tx_hash : String)
    (now : ℕ) (r : IdentityRecord) (h : store address = some r) :
    (mark_as_minted store address tx_hash now).2 = true ∧
    (mark_as_minted store address tx_hash now).1 address =
      some { r with
             minted := true
             mint_tx_hash := some tx_hash
             minted_at := some now } := by
  unfold mark_as_minted
  rw [h]
  simp

lemma run_graph_eq (env : ChainEnv) (oracle : Except Unit OracleResponse)
    (store : Store) (now : ℕ) (address : String)
    (hc : env.connected = true) (hv : env.is_address address = true)
    {wb tb : ℕ} (hb : env.get_balance = .ok wb)
    (ht : env.get_tx_count = .ok tb) :
    run_graph env oracle store now address =
      .ok (identity_node oracle (analyst_out env address wb tb),
           save_identity store
             (save_node_data (identity_node oracle (analyst_out env address wb tb)))
             now) := by
  unfold run_graph
  rw [analyze_wallet_eq_ok env address hc hv hb ht]
  rfl

lemma run_graph_ok_inv (env : ChainEnv) (oracle : Except Unit OracleResponse)
    (store : Store) (now : ℕ) (a : String) (st : GraphState) (store2 : Store)
    (h : run_graph env oracle store now a = .ok (st, store2)) :
    st.address = a ∧
    ∃ r, store2 a = some r ∧ r.name = st.name ∧ r.verdict = st.verdict ∧
      r.tier = st.tier := by
  unfold run_graph at h
  cases ha : analyze_wallet env a with
  | error e => rw [ha] at h; simp at h
  | ok stats =>
    rw [ha] at h
    simp only [Except.ok.injEq, Prod.mk.injEq] at h
    obtain ⟨hst, hstore⟩ := h
    subst hst
    subst hstore
    constructor
    · rw [identity_node_address]
    · have haddr :
        (save_node_data (identity_node oracle
          { address := a, wallet_stats := stats, name := "", verdict := ""
            tier := stats.tier })).address = a := by
        show (identity_node oracle _).address = a
        rw [identity_node_address]
      obtain ⟨rec, hrec, hname, htier, hverdict, hstats, hscores, hcreated⟩ :=
        save_identity_self store
          (save_node_data (identity_node oracle
            { address := a, wallet_stats := stats, name := "", verdict := ""
              tier := stats.tier })) now
      rw [haddr] at hrec
      exact ⟨rec, hrec, hname, hverdict, htier⟩

lemma app_generate_cache_hit (env : ChainEnv)
    (oracle : Except Unit OracleResponse) (store : Store) (now : ℕ)
    (addr : String) (r : IdentityRecord)
    (hiv : env.is_address addr = true)
    (hr : get_identity store (env.checksum addr) = some r) :
    app_generate env oracle store now addr = .ok (some r, store, false) := by
  unfold app_generate
  rw [if_neg (by simp [hiv])]
  rw [hr]

/-! ### Claim theorems about the workflow and the store -/

/-- C1: after `mark_as_minted` succeeds on a stored record, a full
workflow re-run for that address (whose `save_node` supplies no mint keys)
persists a record with `minted = true`, the marked tx hash and mint
timestamp unchanged, while name, tier, verdict, stats and scores are the
re-run's values; and in general `save_identity` writes a mint field on an
existing row exactly when the corresponding key is present in its input. -/
theorem C1_mint_preservation :
    (∀ (env : ChainEnv) (oracle : Except Unit OracleResponse) (store : Store)
       (addr txh : String) (tmint now : ℕ) (r : IdentityRecord) (wb tb : ℕ),
      env.connected = true → env.is_address addr = true →
      env.get_balance = .ok wb → env.get_tx_count = .ok tb →
      store addr = some r →
      (mark_as_minted store addr txh tmint).2 = true ∧
      ∃ st2 store2 r2,
        run_graph env oracle (mark_as_minted store addr txh tmint).1 now addr
          = .ok (st2, store2) ∧
        store2 addr = some r2 ∧
        r2.minted = true ∧ r2.mint_tx_hash = some txh ∧
        r2.minted_at = some tmint ∧
        r2.name = st2.name ∧ r2.tier = st2.tier ∧ r2.verdict = st2.verdict ∧
        r2.stats = (save_node_data st2).stats ∧
        r2.scores = (save_node_data st2).scores) ∧
    (∀ (store : Store) (data : IdentityData) (now : ℕ) (old rec : IdentityRecord),
      store data.address = some old →
      save_identity store data now data.address = some rec →
      (data.minted = none → rec.minted = old.minted) ∧
      (∀ b, data.minted = some b → rec.minted = b) ∧
      (data.mint_tx_hash = none → rec.mint_tx_hash = old.mint_tx_hash) ∧
      (∀ v, data.mint_tx_hash = some v → rec.mint_tx_hash = v) ∧
      (data.minted_at = none → rec.minted_at = old.minted_at) ∧
      (∀ v, data.minted_at = some v → rec.minted_at = v)) := by
  constructor
  · intro env oracle store addr txh tmint now r wb tb hc hiv hb ht hr
    obtain ⟨hflag, hlook⟩ := mark_as_minted_update store addr txh tmint r hr
    refine ⟨hflag, ?_⟩
    have hrg := run_graph_eq env oracle (mark_as_minted store addr txh tmint).1
      now addr hc hiv hb ht
    have haddr :
        (save_node_data (identity_node oracle (analyst_out env addr wb tb))).address
          = addr := by
      show (identity_node oracle (analyst_out env addr wb tb)).address = addr
      rw [identity_node_address]
      rfl
    have hlook' :
        (mark_as_minted store addr txh tmint).1
          (save_node_data (identity_node oracle (analyst_out env addr wb tb))).address
          = some { r with
                   minted := true
                   mint_tx_hash := some txh
                   minted_at := some tmint } := by
      rw [haddr]
      exact hlook
    have hupd := save_identity_update (mark_as_minted store addr txh tmint).1
      (save_node_data (identity_node oracle (analyst_out env addr wb tb))) now
      _ hlook'
    rw [haddr] at hupd
    exact ⟨identity_node oracle (analyst_out env addr wb tb), _, _, hrg, hupd,
      rfl, rfl, rfl, rfl, rfl, rfl, rfl, rfl⟩
  · intro store data now old rec hold hsave
    rw [save_identity_update store data now old hold] at hsave
    injection hsave with hsave
    subst hsave
    refine ⟨fun hn => by simp [hn], fun b hb2 => by simp [hb2],
      fun hn => by simp [hn], fun v hv2 => by simp [hv2],
      fun hn => by simp [hn], fun v hv2 => by simp [hv2]⟩

/-- Witness for C1: a stored record at `0xA` is marked minted with hash
`0xabc` at time 5, then the workflow re-runs at time 9 with a successful
oracle; the theorem yields the preserved mint fields. -/
theorem C1_mint_preservation_witness :
    (envOK.connected = true ∧ envOK.is_address "0xA" = true ∧
     envOK.get_balance = .ok 0 ∧ envOK.get_tx_count = .ok 0 ∧
     storeA "0xA" = some recA) ∧
    ((mark_as_minted storeA "0xA" "0xabc" 5).2 = true ∧
     ∃ st2 store2 r2,
       run_graph envOK (.ok { name := some "Neo", verdict := some "Vee" })
         (mark_as_minted storeA "0xA" "0xabc" 5).1 9 "0xA" = .ok (st2, store2) ∧
       store2 "0xA" = some r2 ∧
       r2.minted = true ∧ r2.mint_tx_hash = some "0xabc" ∧
       r2.minted_at = some 5 ∧
       r2.name = st2.name ∧ r2.tier = st2.tier ∧ r2.verdict = st2.verdict ∧
       r2.stats = (save_node_data st2).stats ∧
       r2.scores = (save_node_data st2).scores) :=
  ⟨⟨rfl, rfl, rfl, rfl, rfl⟩,
   C1_mint_preservation.1 envOK (.ok { name := some "Neo", verdict := some "Vee" })
     storeA "0xA" "0xabc" 5 9 recA 0 0 rfl rfl rfl rfl rfl⟩

/-- C2: a call for an address with a stored record is a cache hit: it
returns the stored record, leaves the store untouched and never invokes
the pipeline (so no naming-oracle call); consequently any two successive
calls for the same address leave the store of the first call unchanged,
with the second call a cache hit performing no oracle invocation. -/
theorem C2_cache_idempotence :
    (∀ (env : ChainEnv) (oracle : Except Unit OracleResponse) (store : Store)
       (now : ℕ) (addr : String) (r : IdentityRecord),
      env.is_address addr = true →
      get_identity store (env.checksum addr) = some r →
      app_generate env oracle store now addr = .ok (some r, store, false)) ∧
    (∀ (env : ChainEnv) (oracle₁ oracle₂ : Except Unit OracleResponse)
       (store store₁ : Store) (now₁ now₂ : ℕ) (addr : String)
       (res₁ : Option IdentityRecord) (called₁ : Bool),
      app_generate env oracle₁ store now₁ addr = .ok (res₁, store₁, called₁) →
      ∃ r, store₁ (env.checksum addr) = some r ∧
        app_generate env oracle₂ store₁ now₂ addr
          = .ok (some r, store₁, false)) := by
  constructor
  · exact app_generate_cache_hit
  · intro env oracle₁ oracle₂ store store₁ now₁ now₂ addr res₁ called₁ h₁
    unfold app_generate at h₁
    by_cases hiv : env.is_address addr = false
    · rw [if_pos hiv] at h₁
      exact absurd h₁ (by simp)
    · have hiv' : env.is_address addr = true := by
        revert hiv
        cases env.is_address addr <;> simp
      rw [if_neg hiv] at h₁
      cases hex : get_identity store (env.checksum addr) with
      | some ex =>
        rw [hex] at h₁
        simp only [Except.ok.injEq, Prod.mk.injEq] at h₁
        obtain ⟨h1, h2, h3⟩ := h₁
        subst h2
        exact ⟨ex, hex,
          app_generate_cache_hit env oracle₂ store now₂ addr ex hiv' hex⟩
      | none =>
        rw [hex] at h₁
        cases hrg : run_graph env oracle₁ store now₁ (env.checksum addr) with
        | error e =>
          rw [hrg] at h₁
          exact absurd h₁ (by simp)
        | ok pr =>
          obtain ⟨st2, store2⟩ := pr
          rw [hrg] at h₁
          simp only [Except.ok.injEq, Prod.mk.injEq] at h₁
          obtain ⟨h1, h2, h3⟩ := h₁
          obtain ⟨-, r, hr2, -, -, -⟩ :=
            run_graph_ok_inv env oracle₁ store now₁ (env.checksum addr)
              st2 store2 hrg
          rw [h2] at hr2
          exact ⟨r, hr2,
            app_generate_cache_hit env oracle₂ store₁ now₂ addr r hiv' hr2⟩

/-- Witness for C2: with `recA` stored at `0xA`, a call is a cache hit
returning `recA` with no oracle invocation, and a follow-up call is again
a cache hit on the unchanged store. -/
theorem C2_cache_idempotence_witness :
    (envOK.is_address "0xA" = true ∧
     get_identity storeA (envOK.checksum "0xA") = some recA) ∧
    app_generate envOK (.error ()) storeA 7 "0xA" = .ok (some recA, storeA, false) ∧
    (∃ r, storeA (envOK.checksum "0xA") = some r ∧
      app_generate envOK (.ok { name := none, verdict := none }) storeA 8 "0xA"
        = .ok (some r, storeA, false)) :=
  ⟨⟨rfl, rfl⟩,
   C2_cache_idempotence.1 envOK (.error ()) storeA 7 "0xA" recA rfl rfl,
   C2_cache_idempotence.2 envOK (.error ())
     (.ok { name := none, verdict := none }) storeA storeA 7 8 "0xA"
     (some recA) false
     (C2_cache_idempotence.1 envOK (.error ()) storeA 7 "0xA" recA rfl rfl)⟩

/-- C4 counterexample: with tier COMMON and 5 transactions, the oracle
failure fallback sets the verdict to
`"A common tier wallet on Base with 5 transactions."`, which is not the
claimed template `"A COMMON wallet with 5 transactions."` (the code
lowercases the tier and inserts `"tier ... on Base"`). -/
theorem C4_counterexample :
    (identity_node (.error ()) stCommon).name = "Base COMMON Wallet" ∧
    (identity_node (.error ()) stCommon).verdict
      = "A common tier wallet on Base with 5 transactions." ∧
    (identity_node (.error ()) stCommon).verdict
      ≠ "A COMMON wallet with 5 transactions." := by
  refine ⟨rfl, rfl, ?_⟩
  intro h
  rw [show (identity_node (.error ()) stCommon).verdict
        = "A common tier wallet on Base with 5 transactions." from rfl] at h
  exact absurd h (by decide)

/-- C4 amended: when the naming oracle invocation raises (which includes
non-JSON responses, since the JSON parser raises), the Name stage sets the
name to `"Base <tier> Wallet"` and the verdict to
`"A <tier lowercased> tier wallet on Base with <txCount> transactions."`,
and the workflow still persists a record carrying exactly these; a parsed
response with missing keys instead yields the defaults
`"Unknown Identity"` / `"A wallet on Base."`. -/
theorem C4_naming_fallback_amended :
    (∀ (env : ChainEnv) (store : Store) (now : ℕ) (addr : String) (wb tb : ℕ),
      env.connected = true → env.is_address addr = true →
      env.get_balance = .ok wb → env.get_tx_count = .ok tb →
      ∃ st2 store2,
        run_graph env (.error ()) store now addr = .ok (st2, store2) ∧
        st2.name = "Base " ++ st2.tier ++ " Wallet" ∧
        st2.verdict = "A " ++ strLower st2.tier ++ " tier wallet on Base with "
          ++ toString st2.wallet_stats.tx_count ++ " transactions." ∧
        ∃ r2, store2 addr = some r2 ∧ r2.name = st2.name ∧
          r2.verdict = st2.verdict) ∧
    (∀ st : GraphState,
      (identity_node (.ok { name := none, verdict := none }) st).name
        = "Unknown Identity" ∧
      (identity_node (.ok { name := none, verdict := none }) st).verdict
        = "A wallet on Base.") := by
  constructor
  · intro env store now addr wb tb hc hiv hb ht
    have hrg := run_graph_eq env (.error ()) store now addr hc hiv hb ht
    refine ⟨identity_node (.error ()) (analyst_out env addr wb tb), _, hrg,
      rfl, rfl, ?_⟩
    obtain ⟨-, r, hr, hname, hverdict, -⟩ :=
      run_graph_ok_inv env (.error ()) store now addr _ _ hrg
    exact ⟨r, hr, hname, hverdict⟩
  · intro st
    exact ⟨rfl, rfl⟩

/-- Witness for C4 amended: both branches at concrete inputs. -/
theorem C4_naming_fallback_amended_witness :
    (envOK.connected = true ∧ envOK.is_address "0xW" = true ∧
     envOK.get_balance = .ok 0 ∧ envOK.get_tx_count = .ok 0) ∧
    (∃ st2 store2,
      run_graph envOK (.error ()) emptyStore 3 "0xW" = .ok (st2, store2) ∧
      st2.name = "Base " ++ st2.tier ++ " Wallet" ∧
      st2.verdict = "A " ++ strLower st2.tier ++ " tier wallet on Base with "
        ++ toString st2.wallet_stats.tx_count ++ " transactions." ∧
      ∃ r2, store2 "0xW" = some r2 ∧ r2.name = st2.name ∧
        r2.verdict = st2.verdict) ∧
    ((identity_node (.ok { name := none, verdict := none }) stCommon).name
       = "Unknown Identity" ∧
     (identity_node (.ok { name := none, verdict := none }) stCommon).verdict
       = "A wallet on Base.") :=
  ⟨⟨rfl, rfl, rfl, rfl⟩,
   C4_naming_fallback_amended.1 envOK emptyStore 3 "0xW" 0 0 rfl rfl rfl rfl,
   C4_naming_fallback_amended.2 stCommon⟩

/-- C9 code evaluation: inserting a record at time 100 and upserting the
same address at time 200 updates the analysis fields (the name becomes
`N2`) but also overwrites `created_at` with 200 — the stored row no longer
records its first-creation time, and the schema has no separate
`updated_at` column to absorb the refresh. -/
theorem C9_created_at_overwritten :
    ((save_identity emptyStore dataA 100) "0xA").map IdentityRecord.created_at
      = some 100 ∧
    ((save_identity (save_identity emptyStore dataA 100) dataB 200) "0xA").map
      IdentityRecord.name = some "N2" ∧
    ((save_identity (save_identity emptyStore dataA 100) dataB 200) "0xA").map
      IdentityRecord.created_at = some 200 ∧
    (200 : ℕ) ≠ 100 :=
  ⟨rfl, rfl, rfl, by norm_num⟩

end BaseIdentity
